import Mathlib

/-!
Verification of the job-lifecycle client of the Data-Research-Engineer
repository.  Shallow embedding of `src/frontend/js/app.js`: JavaScript
values with their truthiness, the table renderer, the quality-tier
function, the job-start handlers, the progress display, and one step of
each polling loop.  Machine numbers from JS are modelled as `ℚ` (scores,
durations) and `Int` (counts, percentages); JS `undefined`/`null`/falsy
semantics are modelled explicitly.
-/

namespace DRE

/-- A JavaScript value as it can appear in a table cell or payload field. -/
inductive JsValue where
  | undefinedVal
  | null
  | boolean (b : Bool)
  | num (q : ℚ)
  | str (s : String)
deriving DecidableEq

/-- JS truthiness: `undefined`, `null`, `false`, `0` and `""` are falsy. -/
def JsValue.truthy : JsValue → Bool
  | .undefinedVal => false
  | .null => false
  | .boolean b => b
  | .num q => q ≠ 0
  | .str s => s ≠ ""

/-- JS string conversion as performed by template interpolation. -/
def jsToString : JsValue → String
  | .undefinedVal => "undefined"
  | .null => "null"
  | .boolean b => if b then "true" else "false"
  | .num q => toString q
  | .str s => s

/-- A data row: a JS object as an association list (insertion order kept). -/
abbrev Row := List (String × JsValue)

/-- `Object.keys(row)` in insertion order. -/
def rowKeys (r : Row) : List String := r.map Prod.fst

/-- JS property access `row[header]`: a missing key yields `undefined`. -/
def jsLookup (r : Row) (k : String) : JsValue :=
  match r.find? (fun p => p.1 = k) with
  | some p => p.2
  | none => .undefinedVal

/-- One table cell from `createTableHTML` (app.js line 299):
`row[header] || ''` interpolated into the cell. -/
def renderCell (r : Row) (k : String) : String :=
  let v := jsLookup r k
  if v.truthy then jsToString v else ""

/-- `getQualityColor` (app.js lines 307-312).  The score is `Option ℚ`
(`none` = absent).  `if (!score)` is true for an absent score and for the
present score `0` (JS falsiness of the number 0). -/
def getQualityColor : Option ℚ → String
  | none => "#666"
  | some score =>
    if score = 0 then "#666"
    else if score ≥ 0.8 then "#28a745"
    else if score ≥ 0.6 then "#ffc107"
    else "#dc3545"

/-- A table entry as received from the server (shape of §6 of the spec,
fields as accessed by `createTableCard`/`createTableHTML`).  `none`
models an absent (or `null`) field; `preview_only` is the truthiness of
the optional flag. -/
structure Table where
  name : Option String
  row_count : Int
  col_count : Int
  category : Option String
  quality_score : Option ℚ
  columns : Option (List String)
  data : Option (List Row)
  preview_only : Bool
deriving DecidableEq

/-- The output of `createTableHTML`: either the no-data placeholder or a
rendered table with a header row and the body rows' cell texts. -/
inductive TableHTML where
  | noData
  | rendered (headers : List String) (body : List (List String))
deriving DecidableEq

/-- Header row of the rendered output (empty for the placeholder). -/
def TableHTML.headerRow : TableHTML → List String
  | .noData => []
  | .rendered hs _ => hs

/-- Number of body rows of the rendered output (0 for the placeholder). -/
def TableHTML.bodyCount : TableHTML → Nat
  | .noData => 0
  | .rendered _ b => b.length

/-- `createTableHTML` (app.js lines 281-305): no-data placeholder when
`table.data` is absent or empty; headers are `table.columns` when present
(JS: an array, even empty, is truthy) else the keys of row 0; body rows
are `table.data.slice(0, 50)`, each cell `row[header] || ''`. -/
def createTableHTML (t : Table) : TableHTML :=
  match t.data with
  | none => .noData
  | some [] => .noData
  | some (r0 :: rest) =>
    let headers := t.columns.getD (rowKeys r0)
    let rows := (r0 :: rest).take 50
    .rendered headers (rows.map (fun r => headers.map (renderCell r)))

/-- The truncation note of `createTableCard` (app.js line 274):
`table.preview_only ? note : ''` — shown iff the flag is truthy, the
reported `row_count` is never consulted. -/
def truncatedNoteShown (t : Table) : Bool := t.preview_only

/-- A 120-row table with no explicit columns and no preview flag, the
shape quoted by the spec's example. -/
def row120 : Row := [("a", JsValue.num 1)]

/-- The example table: `row_count = 120`, 120 data rows, no `columns`,
`preview_only` not set. -/
def t120 : Table :=
  { name := none, row_count := 120, col_count := 1, category := none,
    quality_score := none, columns := none,
    data := some (List.replicate 120 row120), preview_only := false }

/-- A terminal result payload as consumed by `displayResults`
(app.js lines 215-235). -/
structure ResultsObj where
  table_count : Option Int
  tables : Option (List Table)
  processing_time : Option ℚ
deriving DecidableEq

/-- JS `a || b` for an optional number `a` (a number is falsy iff 0;
an absent field is `undefined`, falsy). -/
def jsNumOr (a : Option Int) (b : Int) : Int :=
  match a with
  | some n => if n = 0 then b else n
  | none => b

/-- The table count of the stats line (app.js line 221):
`results.table_count || results.tables?.length || 0`. -/
def statsTableCount (r : ResultsObj) : Int :=
  jsNumOr r.table_count (jsNumOr (r.tables.map (fun l => (l.length : Int))) 0)

/-- The client state the job-start handlers touch: the single shared
`this.currentJobId` slot. -/
structure AppState where
  currentJobId : Option String
deriving DecidableEq

/-- Outcome of the submission request (`fetch` at app.js line 71/140). -/
inductive SubmitOutcome where
  | ok (job_id : String)
  | httpError (code : Nat)
  | networkError
deriving DecidableEq

/-- What a start handler did: returned early on invalid input, submitted
a job and began tracking, or hit the catch branch. -/
inductive StartOutcome where
  | rejectedValidation
  | submitted (jobId : String)
  | failed (msg : String)
deriving DecidableEq

/-- JS `String.prototype.trim`: strip leading and trailing whitespace
(structurally, over the character list). -/
def jsTrim (s : String) : String :=
  ⟨((s.data.dropWhile Char.isWhitespace).reverse.dropWhile Char.isWhitespace).reverse⟩

/-- `startAutomatedResearch` (app.js lines 57-97): returns early when the
trimmed topic is empty; on a 2xx submission stores the new job id in
`currentJobId` and begins tracking; `!response.ok` or a network error
lands in the catch branch.  There is no check of an already-active job. -/
def startAutomatedResearch (st : AppState) (topic : String)
    (outcome : SubmitOutcome) : AppState × StartOutcome :=
  if jsTrim topic = "" then (st, .rejectedValidation)
  else
    match outcome with
    | .ok id => ({ st with currentJobId := some id }, .submitted id)
    | .httpError c => (st, .failed ("HTTP error! status: " ++ toString c))
    | .networkError => (st, .failed "network error")

/-- `processManualPdf` (app.js lines 129-160): returns early when no file
is selected; on a 2xx upload stores the new job id and begins tracking.
There is no check of an already-active job. -/
def processManualPdf (st : AppState) (file : Option String)
    (outcome : SubmitOutcome) : AppState × StartOutcome :=
  match file with
  | none => (st, .rejectedValidation)
  | some _ =>
    match outcome with
    | .ok id => ({ st with currentJobId := some id }, .submitted id)
    | .httpError c => (st, .failed ("Upload failed: " ++ toString c))
    | .networkError => (st, .failed "network error")

/-- The progress display state written by `updateProgress`. -/
structure ProgressDisplay where
  widthStyle : String
  text : String
deriving DecidableEq

/-- `updateProgress` (app.js lines 205-208): the raw percentage is
interpolated into the width style; the message replaces the text. -/
def updateProgress (percentage : Int) (message : String) : ProgressDisplay :=
  { widthStyle := toString percentage ++ "%", text := message }

/-- Modelled from the spec: the clamping of a percentage into 0-100 that
§3 requires of the display ("client must tolerate regressions
defensively by clamping display"). -/
def clampPercent (p : Int) : Int := max 0 (min 100 p)

/-- A status payload as parsed from the poll response body, the fields
the poll branching reads (`status.status`, `status.progress`,
`status.message`, `status.error`).  Absent fields are `none`. -/
structure StatusPayload where
  status : Option String
  progress : Int
  message : String
  error : Option String
deriving DecidableEq

/-- Outcome of one status fetch: the promise rejects (network error), or
a response arrives with its HTTP ok-flag and, when the body is valid
JSON, the parsed payload (`none` = `response.json()` throws). -/
inductive FetchOutcome where
  | networkError (msg : String)
  | response (ok : Bool) (body : Option StatusPayload)
deriving DecidableEq

/-- What one iteration of a tracking function does after its fetch:
hand the payload to `displayResults` (completed), show the job failure
and stop, schedule the next poll via `setTimeout`, or show the catch
branch's tracking error and stop. -/
inductive PollAction where
  | displayResults
  | showFailure (msg : String)
  | scheduleNext (delayMs : Nat)
  | showTrackingError (msg : String)
deriving DecidableEq

/-- Whether the action schedules a further poll for this job. -/
def PollAction.schedulesNext : PollAction → Bool
  | .scheduleNext _ => true
  | _ => false

/-- Whether the action is a terminal failure (job failed or the catch
branch ran). -/
def PollAction.isTerminalFailure : PollAction → Bool
  | .showFailure _ => true
  | .showTrackingError _ => true
  | _ => false

/-- One iteration of `trackResearchProgress` (app.js lines 99-127): a
rejected fetch or a body that is not valid JSON lands in the catch
branch; otherwise the branching reads only `status.status` — the HTTP
ok-flag is never consulted — completing on `"completed"`, failing on
`"failed"`, and otherwise rescheduling after 2000 ms. -/
def trackResearchProgressStep (outcome : FetchOutcome) : PollAction :=
  match outcome with
  | .networkError msg => .showTrackingError ("Tracking error: " ++ msg)
  | .response _ none => .showTrackingError "Tracking error: invalid JSON"
  | .response _ (some st) =>
    if st.status = some "completed" then .displayResults
    else if st.status = some "failed" then
      .showFailure ("Research failed: " ++ st.error.getD "undefined")
    else .scheduleNext 2000

/-- One iteration of `trackPdfProcessing` (app.js lines 162-189): same
branching as the research tracker, rescheduling after 1000 ms. -/
def trackPdfProcessingStep (outcome : FetchOutcome) : PollAction :=
  match outcome with
  | .networkError msg => .showTrackingError ("Tracking error: " ++ msg)
  | .response _ none => .showTrackingError "Tracking error: invalid JSON"
  | .response _ (some st) =>
    if st.status = some "completed" then .displayResults
    else if st.status = some "failed" then
      .showFailure ("Processing failed: " ++ st.error.getD "undefined")
    else .scheduleNext 1000

/-- Events of one polling-loop execution: a status request is issued, the
request settles (response or rejection delivered), the next poll is
scheduled.  Each iteration of the tracking function awaits its fetch and
body before reaching `setTimeout`, so an iteration contributes
`request :: settled` and only then possibly `scheduled`. -/
inductive PollEvent where
  | request
  | settled
  | scheduled
deriving DecidableEq

/-- The event trace of a polling loop driven by the given per-iteration
step, consuming one fetch outcome per iteration: every iteration issues
one request and awaits it; only a `scheduleNext` action continues the
loop. -/
def pollTrace (step : FetchOutcome → PollAction) :
    List FetchOutcome → List PollEvent
  | [] => []
  | o :: os =>
    .request :: .settled ::
      (if (step o).schedulesNext then .scheduled :: pollTrace step os else [])

/-- Occurrence count of an event in a trace. -/
def countEv (e : PollEvent) : List PollEvent → Nat
  | [] => 0
  | x :: xs => (if x = e then 1 else 0) + countEv e xs

end DRE

namespace DRE

/-- Claim C9: the present score 0 takes the absent-score branch: the
function returns the unknown-tier color `#666`, not the low-tier color. -/
theorem C9_zero_score_is_unknown_tier :
    getQualityColor (some 0) = "#666" ∧ getQualityColor (some 0) ≠ "#dc3545" := by
  constructor
  · rfl
  · decide

/-- Claim C1, counterexample: the score 0 is present and strictly below
0.6, yet `getQualityColor` does not return the low-tier color, refuting
the claimed equivalence (low tier iff score < 0.6). -/
theorem C1_counterexample :
    (0 : ℚ) < 0.6 ∧ getQualityColor (some 0) ≠ "#dc3545" := by
  constructor
  · norm_num
  · decide

/-- Claim C1 (amended): high iff score ≥ 0.8, medium iff 0.6 ≤ score < 0.8,
low iff score < 0.6 and score ≠ 0, unknown iff the score is absent or 0;
and the five quoted sample evaluations hold. -/
theorem C1_quality_tiers :
    (∀ s : ℚ,
      (getQualityColor (some s) = "#28a745" ↔ 0.8 ≤ s) ∧
      (getQualityColor (some s) = "#ffc107" ↔ 0.6 ≤ s ∧ s < 0.8) ∧
      (getQualityColor (some s) = "#dc3545" ↔ s < 0.6 ∧ s ≠ 0) ∧
      (getQualityColor (some s) = "#666" ↔ s = 0)) ∧
    getQualityColor none = "#666" ∧
    getQualityColor (some 0.8) = "#28a745" ∧
    getQualityColor (some 0.79999) = "#ffc107" ∧
    getQualityColor (some 0.6) = "#ffc107" ∧
    getQualityColor (some 0.59999) = "#dc3545" ∧
    getQualityColor none = "#666" := by
  refine ⟨fun s => ?_, rfl, by norm_num [getQualityColor], by norm_num [getQualityColor],
    by norm_num [getQualityColor], by norm_num [getQualityColor], rfl⟩
  by_cases h0 : s = 0
  · subst h0
    refine ⟨?_, ?_, ?_, ?_⟩ <;> simp [getQualityColor] <;> norm_num
  · by_cases h8 : (0.8 : ℚ) ≤ s
    · have h6 : (0.6 : ℚ) ≤ s := by linarith
      refine ⟨?_, ?_, ?_, ?_⟩ <;>
        simp [getQualityColor, h0, h8, h6] <;> first | decide | (intro h; linarith)
    · by_cases h6 : (0.6 : ℚ) ≤ s
      · refine ⟨?_, ?_, ?_, ?_⟩ <;>
          simp [getQualityColor, h0, h8, h6] <;>
            first | decide | (constructor <;> intro h <;> [skip; linarith]) | linarith
      · refine ⟨?_, ?_, ?_, ?_⟩ <;>
          simp [getQualityColor, h0, h8, h6] <;> first | decide | linarith

/-- Helper: on a non-empty data list, `createTableHTML` renders headers
from explicit columns (else row-0 keys) and takes at most 50 body rows. -/
lemma createTableHTML_cons (t : Table) (r0 : Row) (rest : List Row)
    (h : t.data = some (r0 :: rest)) :
    (createTableHTML t).headerRow = t.columns.getD (rowKeys r0) ∧
    (createTableHTML t).bodyCount = min (r0 :: rest).length 50 := by
  refine ⟨?_, ?_⟩ <;>
    simp [createTableHTML, h, TableHTML.headerRow, TableHTML.bodyCount] <;>
      omega

/-- Helper: the example table's data list is a cons cell. -/
lemma t120_data_cons :
    t120.data = some (row120 :: List.replicate 119 row120) := rfl

/-- Claim C3, counterexample: the example table has `row_count = 120 > 50`
and no `preview_only` flag, yet the truncation indication is NOT shown —
the code keys the note solely on `preview_only`, refuting
`truncated = (row_count > 50) OR preview_only`. -/
theorem C3_counterexample :
    (50 : Int) < t120.row_count ∧ truncatedNoteShown t120 = false := by
  exact ⟨by decide, rfl⟩

/-- Claim C3 (amended): the render step produces `min(n, 50)` body rows
with the header row from explicit columns or else the keys of row 0, but
the truncated/preview note is shown iff `preview_only` is set — the
reported row count plays no part; the example 120-row table yields 50
body rows, header `["a"]`, and NO truncation note. -/
theorem C3_render_cap_and_preview_flag :
    (∀ (t : Table) (r0 : Row) (rest : List Row), t.data = some (r0 :: rest) →
      (createTableHTML t).headerRow = t.columns.getD (rowKeys r0) ∧
      (createTableHTML t).bodyCount = min (r0 :: rest).length 50) ∧
    (∀ t : Table, truncatedNoteShown t = t.preview_only) ∧
    ((createTableHTML t120).bodyCount = 50 ∧
     (createTableHTML t120).headerRow = ["a"] ∧
     truncatedNoteShown t120 = false) := by
  refine ⟨fun t r0 rest h => createTableHTML_cons t r0 rest h, fun t => rfl, ?_, ?_, rfl⟩
  · have h := (createTableHTML_cons t120 row120 (List.replicate 119 row120) t120_data_cons).2
    simpa using h
  · have h := (createTableHTML_cons t120 row120 (List.replicate 119 row120) t120_data_cons).1
    simpa [t120, row120, rowKeys] using h

/-- Witness for C3: the amended theorem applied to the example table. -/
theorem C3_witness :
    (createTableHTML t120).headerRow = t120.columns.getD (rowKeys row120) ∧
    (createTableHTML t120).bodyCount = min (row120 :: List.replicate 119 row120).length 50 :=
  C3_render_cap_and_preview_flag.1 t120 row120 (List.replicate 119 row120) t120_data_cons

/-- Claim C10, counterexample: a present, truthy cell value that is the
string `"undefined"` renders as the literal text `undefined`, refuting
"the rendered cell text is never the literal text undefined". -/
theorem C10_counterexample :
    renderCell [("a", JsValue.str "undefined")] "a" = "undefined" := rfl

/-- Claim C10 (amended): a missing cell renders as the empty string; a
present but falsy cell value (0, false, empty string, null) renders the
same way; and any non-empty rendered text is exactly the JS string form
of a present truthy value — so the texts `undefined`/`null` can appear
only by echoing a truthy cell value whose string form is that text,
never from stringifying an absent, undefined or null value. -/
theorem C10_cell_rendering :
    ∀ (r : Row) (k : String),
      renderCell [] k = "" ∧
      ((jsLookup r k).truthy = false → renderCell r k = "") ∧
      (∀ s : String, renderCell r k = s → s ≠ "" →
        (jsLookup r k).truthy = true ∧ jsToString (jsLookup r k) = s) := by
  intro r k
  refine ⟨rfl, fun h => by simp [renderCell, h], fun s hs hne => ?_⟩
  cases htr : (jsLookup r k).truthy with
  | false => simp [renderCell, htr] at hs; exact absurd hs.symm hne
  | true => exact ⟨rfl, by simpa [renderCell, htr] using hs⟩

/-- Witness for C10: a cell holding the number 0 (present, falsy) renders
as the empty string. -/
theorem C10_witness :
    renderCell [("a", JsValue.num 0)] "a" = "" :=
  (C10_cell_rendering [("a", JsValue.num 0)] "a").2.1 (by decide)

/-- A minimal table value, used as list filler in concrete payloads. -/
def tEmpty : Table :=
  { name := none, row_count := 0, col_count := 0, category := none,
    quality_score := none, columns := none, data := none,
    preview_only := false }

/-- Claim C8, counterexample: a payload with `table_count = 0` present
and a two-element tables list reports 2, not the present field's value 0
— the JS `||` chain skips a present-but-zero count. -/
theorem C8_counterexample :
    statsTableCount ⟨some 0, some [tEmpty, tEmpty], none⟩ = 2 ∧ (2 : Int) ≠ 0 :=
  ⟨rfl, by decide⟩

/-- Claim C8 (amended): the stats count equals the explicit `table_count`
field when it is present AND nonzero; a present-but-zero count falls
through exactly as an absent one; with no usable count it is the tables
list length, and 0 when the list is also absent. -/
theorem C8_table_count :
    (∀ (n : Int) (tabs : Option (List Table)) (pt : Option ℚ),
      n ≠ 0 → statsTableCount ⟨some n, tabs, pt⟩ = n) ∧
    (∀ (tabs : Option (List Table)) (pt : Option ℚ),
      statsTableCount ⟨some 0, tabs, pt⟩ = statsTableCount ⟨none, tabs, pt⟩) ∧
    (∀ (l : List Table) (pt : Option ℚ),
      statsTableCount ⟨none, some l, pt⟩ = l.length) ∧
    (∀ pt : Option ℚ, statsTableCount ⟨none, none, pt⟩ = 0) := by
  refine ⟨fun n tabs pt h => ?_, fun tabs pt => ?_, fun l pt => ?_, fun pt => rfl⟩
  · simp [statsTableCount, jsNumOr, h]
  · simp [statsTableCount, jsNumOr]
  · simp [statsTableCount, jsNumOr]
    rintro rfl
    simp

/-- Witness for C8: a nonzero explicit count wins over the list length. -/
theorem C8_witness :
    statsTableCount ⟨some 5, some [tEmpty], none⟩ = 5 :=
  C8_table_count.1 5 (some [tEmpty]) none (by decide)

/-- Claim C4, counterexample: with job `job1` active, a research start
with a valid topic and a successful submission is NOT rejected: it
submits and overwrites the current job id with `job2`. -/
theorem C4_counterexample :
    startAutomatedResearch ⟨some "job1"⟩ "ai" (.ok "job2")
      = (⟨some "job2"⟩, .submitted "job2") ∧
    StartOutcome.submitted "job2" ≠ .rejectedValidation ∧
    (⟨some "job2"⟩ : AppState) ≠ ⟨some "job1"⟩ := by
  exact ⟨rfl, by decide, by decide⟩

/-- Claim C4 (amended): no single-active-job guard exists: whatever the
current job id, a research start with a non-blank topic or a PDF upload
with a file selected proceeds on a successful submission and overwrites
`currentJobId` with the new id (last call wins). -/
theorem C4_no_active_job_guard :
    (∀ (j : Option String) (topic : String) (id : String),
      jsTrim topic ≠ "" →
      startAutomatedResearch ⟨j⟩ topic (.ok id) = (⟨some id⟩, .submitted id)) ∧
    (∀ (j : Option String) (f : String) (id : String),
      processManualPdf ⟨j⟩ (some f) (.ok id) = (⟨some id⟩, .submitted id)) := by
  refine ⟨fun j topic id h => ?_, fun j f id => rfl⟩
  simp [startAutomatedResearch, h]

/-- Witness for C4: a concrete overwrite of an active job. -/
theorem C4_witness :
    startAutomatedResearch ⟨some "old"⟩ "ai" (.ok "new")
      = (⟨some "new"⟩, .submitted "new") :=
  C4_no_active_job_guard.1 (some "old") "ai" "new" (by decide)

/-- Claim C7, counterexample: the reported progress 150 is displayed as
the raw width `150%`, not the clamped `100%` — `updateProgress` performs
no clamping. -/
theorem C7_counterexample :
    (updateProgress 150 "m").widthStyle = "150%" ∧
    toString (clampPercent 150) ++ "%" = "100%" ∧
    ("150%" : String) ≠ "100%" :=
  ⟨rfl, rfl, by decide⟩

/-- Claim C7 (amended): the displayed value is the raw reported value
with no clamping: it agrees with the clamped value only inside 0-100,
and out-of-range values pass through verbatim (the payload is indeed
never rejected, but neither is it clamped). -/
theorem C7_no_clamping :
    (∀ (p : Int) (m : String), 0 ≤ p → p ≤ 100 →
      (updateProgress p m).widthStyle = toString (clampPercent p) ++ "%") ∧
    (updateProgress 150 "x").widthStyle = "150%" ∧
    (updateProgress (-5) "x").widthStyle = "-5%" := by
  refine ⟨fun p m h0 h100 => ?_, rfl, rfl⟩
  have h : clampPercent p = p := by unfold clampPercent; omega
  simp [updateProgress, h]

/-- Witness for C7: an in-range value agrees with its clamped form. -/
theorem C7_witness :
    (updateProgress 40 "m").widthStyle = toString (clampPercent 40) ++ "%" :=
  C7_no_clamping.1 40 "m" (by decide) (by decide)

/-- Helper: in every prefix of a poll trace, at most one request is
unsettled and never more requests are settled than were issued. -/
lemma pollTrace_prefix_counts (step : FetchOutcome → PollAction)
    (os : List FetchOutcome) : ∀ k : Nat,
    countEv .settled ((pollTrace step os).take k)
      ≤ countEv .request ((pollTrace step os).take k) ∧
    countEv .request ((pollTrace step os).take k)
      ≤ countEv .settled ((pollTrace step os).take k) + 1 := by
  induction os with
  | nil => intro k; simp [pollTrace, countEv]
  | cons o os ih =>
    intro k
    match k with
    | 0 => simp [countEv]
    | 1 => simp [pollTrace, countEv]
    | Nat.succ (Nat.succ n) =>
      by_cases hs : (step o).schedulesNext
      · match n with
        | 0 => simp [pollTrace, hs, countEv]
        | Nat.succ m =>
          have h := ih m
          simp [pollTrace, hs, countEv] at h ⊢
          omega
      · simp [pollTrace, hs, countEv]

/-- Helper: over the full trace every issued request settles. -/
lemma pollTrace_total_counts (step : FetchOutcome → PollAction) :
    ∀ os : List FetchOutcome,
    countEv .request (pollTrace step os) = countEv .settled (pollTrace step os) := by
  intro os
  induction os with
  | nil => rfl
  | cons o os ih =>
    by_cases hs : (step o).schedulesNext <;> simp [pollTrace, hs, countEv, ih]

/-- Claim C5: in every execution of either polling loop, at any point of
the trace the number of issued status requests exceeds the number of
settled ones by at most one (no two requests outstanding at once), every
settled count is bounded by the request count, and over the whole trace
every request settles before the loop ends — each cycle issues exactly
one request and awaits it before scheduling the next poll. -/
theorem C5_no_overlapping_polls :
    ∀ (os : List FetchOutcome) (k : Nat),
      (countEv .settled ((pollTrace trackResearchProgressStep os).take k)
         ≤ countEv .request ((pollTrace trackResearchProgressStep os).take k) ∧
       countEv .request ((pollTrace trackResearchProgressStep os).take k)
         ≤ countEv .settled ((pollTrace trackResearchProgressStep os).take k) + 1) ∧
      (countEv .settled ((pollTrace trackPdfProcessingStep os).take k)
         ≤ countEv .request ((pollTrace trackPdfProcessingStep os).take k) ∧
       countEv .request ((pollTrace trackPdfProcessingStep os).take k)
         ≤ countEv .settled ((pollTrace trackPdfProcessingStep os).take k) + 1) ∧
      countEv .request (pollTrace trackResearchProgressStep os)
        = countEv .settled (pollTrace trackResearchProgressStep os) ∧
      countEv .request (pollTrace trackPdfProcessingStep os)
        = countEv .settled (pollTrace trackPdfProcessingStep os) := by
  intro os k
  exact ⟨pollTrace_prefix_counts trackResearchProgressStep os k,
    pollTrace_prefix_counts trackPdfProcessingStep os k,
    pollTrace_total_counts trackResearchProgressStep os,
    pollTrace_total_counts trackPdfProcessingStep os⟩

/-- A non-terminal status payload, as a fixture for the poll claims. -/
def stInProgress : StatusPayload :=
  { status := some "in_progress", progress := 50, message := "working",
    error := none }

/-- Claim C2, counterexample: a non-2xx response (ok = false) whose body
parses as JSON with a non-terminal status schedules a further poll and is
NOT treated as a failure — the trackers never read the HTTP ok-flag. -/
theorem C2_counterexample :
    (trackResearchProgressStep (.response false (some stInProgress))).schedulesNext = true ∧
    (trackResearchProgressStep (.response false (some stInProgress))).isTerminalFailure = false ∧
    (trackPdfProcessingStep (.response false (some stInProgress))).schedulesNext = true := by
  decide

/-- Claim C2 (amended): during polling the HTTP status code is ignored:
a response is handled identically whether 2xx or not; a poll fails
terminally when the body is not valid JSON (or the fetch rejects), and a
non-2xx response with a parseable non-terminal body schedules the next
poll exactly like a 2xx one. -/
theorem C2_poll_http_status_ignored :
    (∀ (ok : Bool) (body : Option StatusPayload),
      trackResearchProgressStep (.response ok body)
        = trackResearchProgressStep (.response true body) ∧
      trackPdfProcessingStep (.response ok body)
        = trackPdfProcessingStep (.response true body)) ∧
    (∀ ok : Bool,
      (trackResearchProgressStep (.response ok none)).isTerminalFailure = true ∧
      (trackPdfProcessingStep (.response ok none)).isTerminalFailure = true) ∧
    (∀ (ok : Bool) (st : StatusPayload),
      st.status ≠ some "completed" → st.status ≠ some "failed" →
      trackResearchProgressStep (.response ok (some st)) = .scheduleNext 2000 ∧
      trackPdfProcessingStep (.response ok (some st)) = .scheduleNext 1000) := by
  refine ⟨fun ok body => ?_, fun ok => ⟨rfl, rfl⟩, fun ok st h1 h2 => ?_⟩
  · cases body <;> exact ⟨rfl, rfl⟩
  · constructor <;>
      simp [trackResearchProgressStep, trackPdfProcessingStep, h1, h2]

/-- Witness for C2: the amended theorem at a concrete non-2xx,
non-terminal outcome. -/
theorem C2_witness :
    trackResearchProgressStep (.response false (some stInProgress)) = .scheduleNext 2000 ∧
    trackPdfProcessingStep (.response false (some stInProgress)) = .scheduleNext 1000 :=
  C2_poll_http_status_ignored.2.2 false stInProgress (by decide) (by decide)

/-- Claim C6: a poll hands the payload to the result renderer iff the
payload's status field equals "completed", for every payload (hence
independent of the progress value); in particular status = completed with
progress = 40 still completes, in both trackers. -/
theorem C6_completion_by_status_only :
    (∀ (ok : Bool) (st : StatusPayload),
      (trackResearchProgressStep (.response ok (some st)) = .displayResults
        ↔ st.status = some "completed") ∧
      (trackPdfProcessingStep (.response ok (some st)) = .displayResults
        ↔ st.status = some "completed")) ∧
    trackResearchProgressStep (.response true (some
      { status := some "completed", progress := 40, message := "m", error := none }))
      = .displayResults ∧
    trackPdfProcessingStep (.response true (some
      { status := some "completed", progress := 40, message := "m", error := none }))
      = .displayResults := by
  refine ⟨fun ok st => ?_, by decide, by decide⟩
  by_cases h1 : st.status = some "completed"
  · constructor <;> simp [trackResearchProgressStep, trackPdfProcessingStep, h1]
  · by_cases h2 : st.status = some "failed" <;>
      constructor <;>
        simp [trackResearchProgressStep, trackPdfProcessingStep, h1, h2]

end DRE
